import Mathlib

/-!
Verification of the xrp-batch-payout core (src/lib/xrp.ts and the payout
driver) against its natural-language specification.

External collaborators (the xpring-js ledger client, address codecs, wallet
factory) are shallowly embedded as function parameters; the control flow of
the repository's own functions is translated statement by statement.
-/

namespace XrpBatchPayout

/-- Transaction status values returned by `xrpClient.getPaymentStatus`
(the xpring-js `TransactionStatus` enumeration, as matched in
`checkPayment`, src/lib/xrp.ts lines 156-171). -/
inductive TransactionStatus
  | Succeeded
  | Pending
  | Failed
  | Unknown
deriving DecidableEq, Repr

/-- Terminal result of a `checkPayment` call:
`confirmed` models the normal return after `Succeeded`;
`txFailed` models `throw Error('Transaction failed.')` on `Failed`/`Unknown`;
`retryLimitReached` models `throw Error('Retry limit of ... reached.')`. -/
inductive CheckOutcome
  | confirmed
  | txFailed
  | retryLimitReached
deriving DecidableEq, Repr

/-- Embedding of `checkPayment` (src/lib/xrp.ts lines 144-174).

`retryLimitCfg` is the module-level `retryLimit` imported from config;
`statusAt n` is the status returned by the (n+1)-st
`xrpClient.getPaymentStatus` call; `polls` counts status queries made so
far; the returned pair carries the outcome and the total number of queries.

`fuel` bounds the recursion depth: the source recursion is not structurally
decreasing (for some non-default argument combinations it does not
terminate), so the embedding returns `none` when the bound is exhausted.

The recursive call mirrors the source exactly, including its swapped
arguments: `checkPayment(xrpClient, txHash, newIndex, retryLimit)` passes
`newIndex = index + 1` in the `numRetries` position and the configured
`retryLimit` in the `index` position (line 166). -/
def checkPaymentGo (retryLimitCfg : Nat) (statusAt : Nat → TransactionStatus) :
    Nat → Nat → Nat → Nat → Option (CheckOutcome × Nat)
  | 0, _, _, _ => none
  | fuel + 1, numRetries, index, polls =>
    match statusAt polls with
    | TransactionStatus.Succeeded => some (CheckOutcome.confirmed, polls + 1)
    | TransactionStatus.Pending =>
        if numRetries ≤ index then
          some (CheckOutcome.retryLimitReached, polls + 1)
        else
          checkPaymentGo retryLimitCfg statusAt fuel (index + 1) retryLimitCfg (polls + 1)
    | TransactionStatus.Failed => some (CheckOutcome.txFailed, polls + 1)
    | TransactionStatus.Unknown => some (CheckOutcome.txFailed, polls + 1)

/-- `checkPayment` entry point: the source's defaults are
`numRetries = retryLimit` (the configured limit) and `index = 0`; the poll
counter starts at zero. -/
def checkPayment (retryLimitCfg : Nat) (statusAt : Nat → TransactionStatus)
    (fuel numRetries index : Nat) : Option (CheckOutcome × Nat) :=
  checkPaymentGo retryLimitCfg statusAt fuel numRetries index 0

/-- Status oracle: `Pending` on the first two queries, `Succeeded` on the
third (the sequence `Pending × 2` then `Succeeded`). -/
def pendingTwiceThenSucceeded : Nat → TransactionStatus :=
  fun n => if n < 2 then TransactionStatus.Pending else TransactionStatus.Succeeded

/-- Status oracle: `Pending` on every query. -/
def alwaysPending : Nat → TransactionStatus :=
  fun _ => TransactionStatus.Pending

/-- The wallet object returned by the wallet factory; only its address is
observable to `generateWallet`. -/
structure Wallet where
  address : String
deriving DecidableEq, Repr

/-- Embedding of `generateWallet` (src/lib/xrp.ts lines 54-82).

The SDK collaborators are parameters: `walletFromSeed` is the result of
`new WalletFactory(network).walletFromSeed(secret)` (`none` models a
null/undefined wallet), `decodeXAddress` models `XrpUtils.decodeXAddress`
(`none` models a failed decode), and the two validity checks model
`XrpUtils.isValidXAddress` / `XrpUtils.isValidClassicAddress`; applied to
an undefined value (modelled by `Option.elim false`) a validity check is
false, as a format check on a missing string is.

The source casts the possibly-undefined addresses with `as string` and
validates afterwards; the final `match` extracts the values the guard has
already proven present (the fallthrough arm is unreachable). -/
def generateWallet (walletFromSeed : Option Wallet)
    (decodeXAddress : String → Option String)
    (isValidXAddress isValidClassicAddress : String → Bool) :
    Except String (Wallet × String) :=
  let xAddress : Option String := walletFromSeed.map Wallet.address
  let classicAddress : Option String := xAddress.bind decodeXAddress
  if walletFromSeed.isNone
      || !(xAddress.elim false isValidXAddress)
      || !(classicAddress.elim false isValidClassicAddress) then
    Except.error "Failed to generate wallet from secret."
  else
    match walletFromSeed, classicAddress with
    | some w, some ca => Except.ok (w, ca)
    | _, _ => Except.error "Failed to generate wallet from secret."

/-- A row of the input CSV (`TxInput` from src/lib/schema.ts), as consumed
by `submitPayment`. -/
structure TxInput where
  address : String
  destinationTag : Option Nat
  usdAmount : ℚ
  name : String

/-- Observable ledger-session operations (the abstract contract of §6:
submit, balance query, status query). `submitPayment` must emit only
`send` operations. -/
inductive LedgerOp
  | send (drops : Int) (destination : Option String)
  | getBalance (xAddress : String)
  | getPaymentStatus (txHash : String)
deriving DecidableEq, Repr

/-- Embedding of `XrpUtils.xrpToDrops`: an XRP amount is converted to the
integer drop count by scaling by 10^6; an amount with more than six decimal
places cannot be represented and raises an error (the SDK never rounds). -/
def xrpToDrops (xrp : ℚ) : Except String Int :=
  if (xrp * 1000000).den = 1 then Except.ok (xrp * 1000000).num
  else Except.error "has too many decimal places"

/-- The native amount computed by `submitPayment`
(line 112: `usdAmount / usdToXrpRate`). -/
def xrpDestinationAmount (usdAmount usdToXrpRate : ℚ) : ℚ :=
  usdAmount / usdToXrpRate

/-- Embedding of `submitPayment` (src/lib/xrp.ts lines 95-130).

`send` models `xrpClient.send` (returning the transaction hash or a
transport/validation error); `encodeXAddress` models
`XrpUtils.encodeXAddress` (the source casts its possibly-undefined result
with `as string`, so the destination is carried as an `Option`).

The second component of the result is the trace of ledger-session
operations performed: `xrpClient.send` appears once in the source with no
loop around it, and no other client operation is invoked, so the trace is
empty when `xrpToDrops` raises and a single `send` otherwise. -/
def submitPayment (send : Int → Option String → Except String String)
    (encodeXAddress : String → Option Nat → Option String)
    (receiverAccount : TxInput) (usdToXrpRate : ℚ) :
    Except String String × List LedgerOp :=
  let destinationXAddress :=
    encodeXAddress receiverAccount.address receiverAccount.destinationTag
  let amount := xrpDestinationAmount receiverAccount.usdAmount usdToXrpRate
  match xrpToDrops amount with
  | Except.error e => (Except.error e, [])
  | Except.ok dropDestinationAmount =>
      (send dropDestinationAmount destinationXAddress,
       [LedgerOp.send dropDestinationAmount destinationXAddress])

/-- Per-recipient terminal outcome (`TransactionOutcome` of the spec, §3):
`Confirmed{txId}`, `Failed{reason}`, or `TimedOut{txId, retriesExhausted}`. -/
inductive TransactionOutcome
  | confirmedTx (txId : String)
  | failedTx (reason : String)
  | timedOut (txId : String) (retriesExhausted : Bool)
deriving DecidableEq, Repr

/-- Modelled from the spec: `reliableBatchPayment` (the Batch Orchestrator,
§4.3) is imported from '../lib/xrp' by the payout driver but its source is
not in the repository snapshot. Per the spec: for each recipient in input
order, call the Submitter; if it returns an error, record `Failed{reason}`
and continue to the next recipient without invoking the Watcher; if it
succeeds, call the Watcher and record whatever terminal outcome it returns.
`submit` is the Submitter and `watch` the Watcher for one recipient. -/
def reliableBatchPayment (submit : TxInput → Except String String)
    (watch : String → TransactionOutcome)
    (txInputs : List TxInput) : List (TxInput × TransactionOutcome) :=
  txInputs.map fun txInput =>
    match submit txInput with
    | Except.error e => (txInput, TransactionOutcome.failedTx e)
    | Except.ok txHash => (txInput, watch txHash)

/-!
Theorems.
-/

/-- C1: the claim states that for a status sequence `Pending × k` then
`Succeeded` with `k < retryLimit`, `checkPayment` (default `numRetries =
retryLimit = 3`, `index = 0`) confirms after exactly `k + 1` queries. The
code refutes it at `k = 2`: because the recursive call swaps its arguments
(line 166), the second invocation runs with `numRetries = 1`,
`index = retryLimit = 3`, so the second `Pending` already throws the
retry-limit error after 2 queries instead of confirming after 3. -/
theorem checkPayment_pending_pending_succeeded_times_out :
    checkPayment 3 pendingTwiceThenSucceeded 10 3 0 =
      some (CheckOutcome.retryLimitReached, 2) := by
  decide

/-- C2: the claim states that with every poll `Pending` and configured
retry limit 3, `checkPayment` throws the retry-limit error only after
exhausting exactly the configured number of retries. The code refutes it:
with the swapped recursive arguments the second invocation has
`numRetries = 1`, `index = 3`, so the retry-limit error is thrown after 2
status queries (a single retry), not after 3. -/
theorem checkPayment_all_pending_two_polls :
    checkPayment 3 alwaysPending 10 3 0 =
      some (CheckOutcome.retryLimitReached, 2) := by
  decide

/-- C5: whenever a status query returns `Failed` or `Unknown`,
`checkPayment` throws `Transaction failed.` immediately after that single
query — no retry and no further query — whatever the retry configuration,
`numRetries`, `index` and the number of polls already made. -/
theorem checkPaymentGo_failed_or_unknown_immediate
    (retryLimitCfg : Nat) (statusAt : Nat → TransactionStatus)
    (fuel numRetries index polls : Nat)
    (h : statusAt polls = TransactionStatus.Failed ∨
         statusAt polls = TransactionStatus.Unknown) :
    checkPaymentGo retryLimitCfg statusAt (fuel + 1) numRetries index polls =
      some (CheckOutcome.txFailed, polls + 1) := by
  rcases h with h | h <;> simp [checkPaymentGo, h]

/-- Witness for C5: a first poll returning `Failed` yields the failed
outcome after exactly one status query. -/
theorem checkPaymentGo_failed_or_unknown_immediate_witness :
    checkPaymentGo 3 (fun _ => TransactionStatus.Failed) 4 3 0 0 =
      some (CheckOutcome.txFailed, 1) :=
  checkPaymentGo_failed_or_unknown_immediate 3 (fun _ => TransactionStatus.Failed)
    3 3 0 0 (Or.inl rfl)

/-- C6: with `numRetries = 0` and the default `index = 0`, a `Pending`
result on the single status query immediately throws the retry-limit
error: exactly one query, no retry. -/
theorem checkPayment_zero_retries_single_poll
    (retryLimitCfg : Nat) (statusAt : Nat → TransactionStatus) (fuel : Nat)
    (h : statusAt 0 = TransactionStatus.Pending) :
    checkPayment retryLimitCfg statusAt (fuel + 1) 0 0 =
      some (CheckOutcome.retryLimitReached, 1) := by
  simp [checkPayment, checkPaymentGo, h]

/-- Witness for C6: retry limit 0 with a pending first poll times out
after exactly one query. -/
theorem checkPayment_zero_retries_single_poll_witness :
    checkPayment 0 alwaysPending 5 0 0 =
      some (CheckOutcome.retryLimitReached, 1) :=
  checkPayment_zero_retries_single_poll 0 alwaysPending 4 rfl

/-- C9: for every configured retry limit and every status sequence,
`checkPayment` called with its defaults (`numRetries` equal to the
configured limit, `index = 0`) reaches a terminal result after at most 2
status queries, and the result does not depend on any extra fuel: the
swapped recursive call gives the second invocation `numRetries = 1` and
`index = retryLimit`, which is terminal on every status. -/
theorem checkPayment_at_most_two_polls
    (retryLimitCfg : Nat) (statusAt : Nat → TransactionStatus) (fuel : Nat) :
    ∃ o p, checkPayment retryLimitCfg statusAt (fuel + 2) retryLimitCfg 0 =
        some (o, p) ∧ p ≤ 2 ∧
      checkPayment retryLimitCfg statusAt (fuel + 2) retryLimitCfg 0 =
        checkPayment retryLimitCfg statusAt 2 retryLimitCfg 0 := by
  unfold checkPayment
  cases h0 : statusAt 0 with
  | Succeeded => exact ⟨CheckOutcome.confirmed, 1, by simp [checkPaymentGo, h0], by omega,
      by simp [checkPaymentGo, h0]⟩
  | Failed => exact ⟨CheckOutcome.txFailed, 1, by simp [checkPaymentGo, h0], by omega,
      by simp [checkPaymentGo, h0]⟩
  | Unknown => exact ⟨CheckOutcome.txFailed, 1, by simp [checkPaymentGo, h0], by omega,
      by simp [checkPaymentGo, h0]⟩
  | Pending =>
    cases hc : retryLimitCfg with
    | zero =>
      exact ⟨CheckOutcome.retryLimitReached, 1, by simp [checkPaymentGo, h0], by omega,
        by simp [checkPaymentGo, h0]⟩
    | succ c =>
      cases h1 : statusAt 1 with
      | Succeeded => exact ⟨CheckOutcome.confirmed, 2,
          by simp [checkPaymentGo, h0, h1], by omega, by simp [checkPaymentGo, h0, h1]⟩
      | Failed => exact ⟨CheckOutcome.txFailed, 2,
          by simp [checkPaymentGo, h0, h1], by omega, by simp [checkPaymentGo, h0, h1]⟩
      | Unknown => exact ⟨CheckOutcome.txFailed, 2,
          by simp [checkPaymentGo, h0, h1], by omega, by simp [checkPaymentGo, h0, h1]⟩
      | Pending => exact ⟨CheckOutcome.retryLimitReached, 2,
          by simp [checkPaymentGo, h0, h1], by omega, by simp [checkPaymentGo, h0, h1]⟩

/-- C3: for every list of recipients, one batch run produces exactly one
outcome per recipient, in input order — the first components of the output
are the input list itself, so its length equals the input count and no
recipient error (submission failure, rejection or timeout, all of which are
values of `submit`/`watch`) drops a later recipient. -/
theorem reliableBatchPayment_one_outcome_per_recipient
    (submit : TxInput → Except String String)
    (watch : String → TransactionOutcome) (txInputs : List TxInput) :
    (reliableBatchPayment submit watch txInputs).map Prod.fst = txInputs ∧
      (reliableBatchPayment submit watch txInputs).length = txInputs.length := by
  constructor
  · induction txInputs with
    | nil => rfl
    | cons r rest ih =>
      simp only [reliableBatchPayment, List.map_cons] at ih ⊢
      cases hs : submit r <;> simp [ih]
  · simp [reliableBatchPayment]

/-- Helper: the concrete conversion used by several witnesses — ten USD at
a rate of one half USD per XRP is twenty XRP. -/
theorem xrpDestinationAmount_ten_half : xrpDestinationAmount 10 (1/2) = 20 := by
  norm_num [xrpDestinationAmount]

/-- Helper: twenty XRP converts exactly to twenty million drops. -/
theorem xrpToDrops_ten_half :
    xrpToDrops (xrpDestinationAmount 10 (1/2)) = Except.ok 20000000 := by
  rw [xrpDestinationAmount_ten_half]
  have h : ((20 : ℚ) * 1000000) = (20000000 : ℚ) := by norm_num
  unfold xrpToDrops
  rw [h]
  simp

/-- C4: `submitPayment` propagates the ledger session's answer unchanged to
its caller: whenever the drop conversion succeeds, the result is exactly
the value returned by `xrpClient.send` — the transaction hash on success,
the transport/validation error as a value on failure — with no further
handling in between. -/
theorem submitPayment_returns_send_result
    (send : Int → Option String → Except String String)
    (encodeXAddress : String → Option Nat → Option String)
    (receiverAccount : TxInput) (usdToXrpRate : ℚ) (drops : Int)
    (h : xrpToDrops (xrpDestinationAmount receiverAccount.usdAmount usdToXrpRate) =
      Except.ok drops) :
    (submitPayment send encodeXAddress receiverAccount usdToXrpRate).1 =
      send drops
        (encodeXAddress receiverAccount.address receiverAccount.destinationTag) := by
  simp [submitPayment, h]

/-- Witness for C4: a concrete submission whose session returns an error
value hands exactly that error to the caller. -/
theorem submitPayment_returns_send_result_witness :
    (submitPayment (fun _ _ => Except.error "transport")
        (fun _ _ => some "X") ⟨"rAddr", none, 10, "alice"⟩ (1/2)).1 =
      Except.error "transport" :=
  submitPayment_returns_send_result (fun _ _ => Except.error "transport")
    (fun _ _ => some "X") ⟨"rAddr", none, 10, "alice"⟩ (1/2) 20000000
    xrpToDrops_ten_half

/-- C7: on every path `submitPayment` performs at most one ledger
operation, that operation is always a `send`, and on the success path the
`send` happens exactly once. -/
theorem submitPayment_send_exactly_once
    (send : Int → Option String → Except String String)
    (encodeXAddress : String → Option Nat → Option String)
    (receiverAccount : TxInput) (usdToXrpRate : ℚ) :
    (submitPayment send encodeXAddress receiverAccount usdToXrpRate).2.length ≤ 1 ∧
      (∀ op ∈ (submitPayment send encodeXAddress receiverAccount usdToXrpRate).2,
        ∃ d dst, op = LedgerOp.send d dst) ∧
      (∀ txHash,
        (submitPayment send encodeXAddress receiverAccount usdToXrpRate).1 =
          Except.ok txHash →
        (submitPayment send encodeXAddress receiverAccount usdToXrpRate).2.length = 1) := by
  unfold submitPayment
  cases h : xrpToDrops (xrpDestinationAmount receiverAccount.usdAmount usdToXrpRate) with
  | error e => simp [h]
  | ok d => simp [h]

/-- Witness for C7: a concrete successful submission performs exactly one
`send` and nothing else. -/
theorem submitPayment_send_exactly_once_witness :
    (submitPayment (fun _ _ => Except.ok "HASH") (fun _ _ => some "X")
        ⟨"rAddr", none, 10, "alice"⟩ (1/2)).2.length = 1 :=
  (submitPayment_send_exactly_once (fun _ _ => Except.ok "HASH")
    (fun _ _ => some "X") ⟨"rAddr", none, 10, "alice"⟩ (1/2)).2.2 "HASH"
    (by
      have h := xrpToDrops_ten_half
      simp only [one_div] at h
      simp [submitPayment, h])

/-- C8: the native amount is `usdAmount / rate` — for `usdAmount = 10` and
`rate = 0.5` exactly 20 XRP, converted to exactly 20000000 drops — and the
drop conversion never rounds: whenever it succeeds it returns exactly
`amount × 10^6` (amounts it cannot represent exactly raise an error
instead of being rounded in either direction). -/
theorem submitPayment_amount_conversion :
    xrpDestinationAmount 10 (1/2) = 20 ∧
      xrpToDrops (xrpDestinationAmount 10 (1/2)) = Except.ok 20000000 ∧
      ∀ q n, xrpToDrops q = Except.ok n → (n : ℚ) = q * 1000000 := by
  refine ⟨xrpDestinationAmount_ten_half, xrpToDrops_ten_half, ?_⟩
  intro q n h
  unfold xrpToDrops at h
  split at h
  · next hden =>
    obtain rfl : (q * 1000000).num = n := by injection h
    exact (Rat.den_eq_one_iff _).mp hden
  · exact absurd h (by simp)

/-- Witness for C8: instantiating the exactness clause at the computed
amount for ten USD at rate one half gives 20000000 drops, not rounded. -/
theorem submitPayment_amount_conversion_witness :
    ((20000000 : Int) : ℚ) = xrpDestinationAmount 10 (1/2) * 1000000 :=
  submitPayment_amount_conversion.2.2 (xrpDestinationAmount 10 (1/2)) 20000000
    xrpToDrops_ten_half

/-- C10: whenever `generateWallet` returns (rather than throwing), the
returned wallet's X-address passes `isValidXAddress` and the returned
classic address passes `isValidClassicAddress`; a missing wallet or an
invalid address always ends in the thrown error. -/
theorem generateWallet_ok_valid (walletFromSeed : Option Wallet)
    (decodeXAddress : String → Option String)
    (isValidXAddress isValidClassicAddress : String → Bool)
    (w : Wallet) (classicAddress : String)
    (h : generateWallet walletFromSeed decodeXAddress
        isValidXAddress isValidClassicAddress = Except.ok (w, classicAddress)) :
    isValidXAddress w.address = true ∧
      isValidClassicAddress classicAddress = true := by
  cases walletFromSeed with
  | none => simp [generateWallet] at h
  | some w0 =>
    cases hd : decodeXAddress w0.address with
    | none => simp [generateWallet, hd] at h
    | some ca0 =>
      by_cases hx : isValidXAddress w0.address
      · by_cases hc : isValidClassicAddress ca0
        · simp [generateWallet, hd, hx, hc] at h
          obtain ⟨rfl, rfl⟩ := h
          exact ⟨hx, hc⟩
        · simp [generateWallet, hd, hx, hc] at h
      · simp [generateWallet, hd, hx] at h

/-- Witness for C10: with a present wallet, a successful decode and
all-accepting validity checks, `generateWallet` returns and both checks
hold on the returned addresses. -/
theorem generateWallet_ok_valid_witness :
    (fun _ : String => true) "X" = true ∧ (fun _ : String => true) "C" = true :=
  generateWallet_ok_valid (some ⟨"X"⟩) (fun _ => some "C")
    (fun _ => true) (fun _ => true) ⟨"X"⟩ "C" rfl

end XrpBatchPayout
